import Mathlib

/-!
Verification of the shared contact-form coordination subsystem of the
call-intellect marketing site.

The coordinator lives in the ContactFormProvider component
(src/unnamed/part_001): two state cells, isOpen (initially false) and
formType (initially "general"), an openForm function with a defaulted
parameter that writes both cells, and a closeForm function that clears
isOpen.  The application shell (src/unnamed/part_000) mounts a single
ContactFormProvider around the router, and the provider itself renders
the one ContactForm instance next to its children.

All state updates are modelled as pure functions on a record type; the
render tree of the shell is modelled as a small inductive so that the
single-presenter invariant can be stated.
-/

namespace ContactFormContext

/-- Coordinator state held by ContactFormProvider: the two useState cells
isOpen and formType from src/unnamed/part_001 lines 7 and 8. -/
structure CoordinatorState where
  isOpen : Bool
  formType : String
deriving Repr, DecidableEq

/-- Initial state: useState(false) and useState("general"). -/
def initState : CoordinatorState :=
  { isOpen := false, formType := "general" }

/-- Embedding of openForm from src/unnamed/part_001.  The JavaScript
signature is openForm = (type = "general") => { setFormType(type);
setIsOpen(true) }.  The defaulted parameter is modelled as an Option:
none stands for a call with the argument omitted (or undefined), in
which case the default "general" applies; some v stands for a call with
the explicit value v, which is written into formType verbatim. -/
def openForm (type : Option String) (_s : CoordinatorState) : CoordinatorState :=
  { isOpen := true, formType := type.getD "general" }

/-- Embedding of closeForm from src/unnamed/part_001:
closeForm = () => setIsOpen(false).  Only isOpen is written. -/
def closeForm (s : CoordinatorState) : CoordinatorState :=
  { s with isOpen := false }

/-- One call into the coordinator API: an openForm call carrying its
optional argument, or a closeForm call. -/
inductive Call where
  | opn (type : Option String)
  | cls
deriving Repr, DecidableEq

/-- Apply a single coordinator call to a state. -/
def step (s : CoordinatorState) (c : Call) : CoordinatorState :=
  match c with
  | Call.opn t => openForm t s
  | Call.cls => closeForm s

/-- Apply a sequence of coordinator calls in order. -/
def run (s : CoordinatorState) (cs : List Call) : CoordinatorState :=
  cs.foldl step s

/-- Routes of the application shell, from the Routes block in
src/unnamed/part_000. -/
inductive Route where
  | home
  | sales
  | marketing
  | marketAnalysis
  | blog
  | contacts
  | admin
  | personalData
deriving Repr, DecidableEq

/-- Render tree of the shell, with just enough structure to locate the
ContactForm presenter.  Leaves other than contactForm mount no
presenter. -/
inductive Elem where
  | contactForm
  | pageContent (r : Route)
  | header
  | footer
  | node (children : List Elem)
deriving Repr

mutual

/-- Count of mounted ContactForm presenter instances in a render tree. -/
def countForms : Elem → Nat
  | Elem.contactForm => 1
  | Elem.pageContent _ => 0
  | Elem.header => 0
  | Elem.footer => 0
  | Elem.node cs => countFormsList cs

/-- Count of mounted ContactForm presenter instances in a list of trees. -/
def countFormsList : List Elem → Nat
  | [] => 0
  | e :: es => countForms e + countFormsList es

end

/-- Modelled from the spec: the routed page components (Home, Sales,
Marketing, MarketAnalysis, Blog, AdminPanel, PersonalData) are not under
src/; per the spec they are Trigger Sites that call open and never mount
the Presenter themselves, so each routed page is a leaf that contains no
ContactForm.  The one routed page that is under src/
(src/call-intellect-site/src/pages/Contacts.jsx) indeed renders no
ContactForm, only a button calling openForm. -/
def routedContent (r : Route) : Elem :=
  Elem.pageContent r

/-- Embedding of ContactFormProvider rendering from src/unnamed/part_001
lines 17 to 22: the provider renders its children and then exactly one
ContactForm instance as a sibling of the children, outside of them. -/
def contactFormProvider (children : Elem) : Elem :=
  Elem.node [children, Elem.contactForm]

/-- Embedding of the App component body from src/unnamed/part_000: the
shell inside the provider is Header, then the routed content for the
active route, then Footer. -/
def appShell (r : Route) : Elem :=
  Elem.node [Elem.header, Elem.node [routedContent r], Elem.footer]

/-- Embedding of App from src/unnamed/part_000: a single
ContactFormProvider wraps the shell, so the ContactForm sits at the
application root outside the routed page content. -/
def App (r : Route) : Elem :=
  contactFormProvider (appShell r)

/-- Claim C1, counterexample: openForm called with the unknown value
"unknown-variant" leaves that value in formType rather than coercing it
to "general", so the claim as stated is false at this input. -/
theorem C1_counterexample :
    (openForm (some "unknown-variant") initState).formType ≠ "general" := by
  decide

/-- Claim C1, amended: openForm never throws (it is a total function) and
writes the given value into formType verbatim, even for values outside
the known set; only a call with the argument omitted substitutes the
default "general". -/
theorem C1_open_passes_value_through (v : String) (s : CoordinatorState) :
    openForm (some v) s = { isOpen := true, formType := v } ∧
    openForm none s = { isOpen := true, formType := "general" } :=
  ⟨rfl, rfl⟩

/-- Claim C2: openForm writes both fields as one atomic update: the
resulting state is fully determined by the call alone, independent of the
prior state, with isOpen = true and formType the given value (or the
default when omitted). -/
theorem C2_open_atomic (t : Option String) (s sPrev : CoordinatorState) :
    openForm t s = openForm t sPrev ∧
    (openForm t s).isOpen = true ∧
    (openForm t s).formType = t.getD "general" :=
  ⟨rfl, rfl, rfl⟩

/-- Claim C3: opening with a second value while already open with a first
value, with no intervening close, yields the second value with the form
still visible (last-call-wins); in particular demo then calculate yields
calculate and visible. -/
theorem C3_last_call_wins (i j : String) (s : CoordinatorState) :
    openForm (some j) (openForm (some i) s)
      = { isOpen := true, formType := j } ∧
    openForm (some "calculate") (openForm (some "demo") s)
      = { isOpen := true, formType := "calculate" } :=
  ⟨rfl, rfl⟩

/-- Claim C4: for every state and every sequence of calls ending in a
last call c, the state after the whole sequence equals the effect of
applying c alone to the state reached before it: no state from earlier
calls is merged in beyond what c itself leaves unchanged. -/
theorem C4_last_call_determines (s : CoordinatorState) (pre : List Call) (c : Call) :
    run s (pre ++ [c]) = step (run s pre) c := by
  simp [run, List.foldl_append]

/-- Claim C5: openForm with the argument omitted yields formType
"general" and isOpen true, from every prior state. -/
theorem C5_open_default_general (s : CoordinatorState) :
    openForm none s = { isOpen := true, formType := "general" } :=
  rfl

/-- Claim C6: closeForm sets isOpen to false from every prior state. -/
theorem C6_close_hides (s : CoordinatorState) :
    (closeForm s).isOpen = false :=
  rfl

/-- Claim C7: closeForm on an already-closed state is a no-op (the whole
state is unchanged) and closeForm is idempotent. -/
theorem C7_close_noop_when_closed (s : CoordinatorState) (h : s.isOpen = false) :
    closeForm s = s ∧ closeForm (closeForm s) = closeForm s := by
  cases s
  simp_all [closeForm]

/-- Witness for C7 at the concrete initial state, which is closed. -/
theorem C7_close_noop_when_closed_witness :
    closeForm initState = initState ∧
    closeForm (closeForm initState) = closeForm initState :=
  C7_close_noop_when_closed initState rfl

/-- Claim C8: for every active route, exactly one ContactForm presenter
is mounted in the application tree, and none of it sits inside the routed
page content, so the instance persists across navigation. -/
theorem C8_single_presenter (r : Route) :
    countForms (App r) = 1 ∧ countForms (routedContent r) = 0 :=
  ⟨rfl, rfl⟩

/-- Claim C9: at application start, before any call, the coordinator
state is closed with the default formType "general". -/
theorem C9_initial_state :
    initState.isOpen = false ∧ initState.formType = "general" :=
  ⟨rfl, rfl⟩

/-- Claim C10: closeForm modifies only isOpen; formType is left exactly
as it was, so after a close it still holds the value written by the most
recent open, or the initial default if openForm was never called. -/
theorem C10_close_frame (s : CoordinatorState) :
    closeForm s = { isOpen := false, formType := s.formType } :=
  rfl

end ContactFormContext
